import Mathlib

/-!
Shallow embedding of the liquidation reconstruction engine of
mev-inspect-py, covering:

  src/mev_inspect/compound_liquidations.py
  src/mev_inspect/strategy_inspectors/compound_v2_ceth.py

Python dictionaries are modelled as association lists; a dictionary
access that would raise `KeyError` returns `Except.error`.  On-chain
queries through the `web3` provider are modelled by a record of oracle
functions that either return a decoded value or fail (network error or
revert).  Machine arithmetic is exact here: Python ints are `Int` and
the floating-point exchange rate is modelled by `ℚ` (the spec asks for
the exact value of `r / 10 ^ (18 + d_u - d_c)` within floating-point
tolerance).  `Web3.toChecksumAddress` canonicalises the hex casing of
an address before a chain query; we model the canonical form of an
address by its lower-casing, so chain oracles are keyed on lower-cased
addresses.
-/

/-- Kinds of Python runtime failure that the source can raise:
`keyError k` for a dictionary access on a missing key `k`,
`attributeError` for attribute access on `None` (and for calling a
string method on a non-string), `typeError` for multiplying a
non-number, and `chainError` for a failed on-chain query. -/
inductive PyError where
  | keyError (k : String)
  | attributeError
  | typeError
  | chainError
  deriving DecidableEq, Repr

/-- Decoded input values of a call trace: the decoded `inputs` mapping
of a trace sends parameter names to either address strings or
integers. -/
inductive Value where
  | str (s : String)
  | int (n : Int)
  deriving DecidableEq, Repr

/-- Trace classification assigned by the upstream pipeline. -/
inductive Classification where
  | transfer
  | swap
  | liquidate
  | seize
  | unknown
  deriving DecidableEq, Repr

/-- Lending protocol tag of a classified trace. -/
inductive Protocol where
  | compound_v2
  | other
  deriving DecidableEq, Repr

/-- Modelled from the spec: the `ClassifiedTrace` schema
(mev_inspect.schemas.classified_traces is not under src/).  Fields are
those of spec section 3 that the source reads: tree position
(`transaction_hash`, `trace_address`), provenance (`block_number`),
classification data, addresses, decoded `inputs` and the native-asset
`value` of the call. -/
structure ClassifiedTrace where
  transaction_hash : String
  block_number : Int
  trace_address : List Nat
  classification : Classification
  protocol : Option Protocol
  abi_name : Option String
  from_address : String
  to_address : String
  inputs : List (String × Value)
  value : Int
  deriving DecidableEq, Repr

/-- Modelled from the spec: the `Liquidation` output record schema
(mev_inspect.schemas.liquidations is not under src/), with exactly the
fields the constructor call in get_compound_liquidations populates. -/
structure Liquidation where
  liquidated_user : Value
  collateral_token_address : String
  debt_token_address : String
  liquidator_user : Value
  debt_purchase_amount : Value
  protocol : Protocol
  received_amount : ℚ
  transaction_hash : String
  trace_address : List Nat
  block_number : Int
  deriving DecidableEq, Repr

/-- Association-list lookup, the model of a Python dictionary read that
returns the value bound to the first matching key, or nothing. -/
def assocLookup {α : Type} : List (String × α) → String → Option α
  | [], _ => none
  | (k, v) :: d, q => if k = q then some v else assocLookup d q

/-- Python `d[k]` on a trace-inputs dictionary: `KeyError` when the key
is absent. -/
def dictGet (d : List (String × Value)) (k : String) : Except PyError Value :=
  match assocLookup d k with
  | some v => .ok v
  | none => .error (.keyError k)

/-- Python `d[k]` on the market registry (a str-to-str dictionary):
`KeyError` when the key is absent. -/
def mapGet (d : List (String × String)) (k : String) : Except PyError String :=
  match assocLookup d k with
  | some v => .ok v
  | none => .error (.keyError k)

/-- Python dictionary assignment `d[k] = v`: overwrite the binding when
the key is present, append otherwise. -/
def dictSet (d : List (String × String)) (k v : String) : List (String × String) :=
  if d.any (fun p => p.1 = k) then
    d.map (fun p => if p.1 = k then (k, v) else p)
  else
    d ++ [(k, v)]

/-- Python str.lower (and the case-canonicalisation performed by
`Web3.toChecksumAddress`): character-wise lower-casing of an address
string. -/
def strLower (s : String) : String := String.mk (s.data.map Char.toLower)

/-- Using a decoded input value as a string (for example passing it to
`Web3.toChecksumAddress` or calling `.lower()` on it): fails on an
integer value. -/
def Value.asStr : Value → Except PyError String
  | .str s => .ok s
  | .int _ => .error .typeError

/-- Using a decoded input value as a number (multiplying it by the
exchange rate): Python raises `TypeError` when it is a string. -/
def Value.asInt : Value → Except PyError Int
  | .int n => .ok n
  | .str _ => .error .typeError

/-- Python attribute access on an `Optional` value: `None.inputs`
raises `AttributeError`. -/
def derefOpt {α : Type} : Option α → Except PyError α
  | some a => .ok a
  | none => .error .attributeError

/-- The chain-query capability (the `web3` provider): the comptroller
market enumeration, the per-market underlying-asset pointer, the
historical raw exchange rate, and the ERC20 decimals query.  Oracles
are keyed on the canonical (lower-cased) form of an address, the model
of checksum canonicalisation. -/
structure Web3 where
  getAllMarkets : List String
  underlying : String → Except PyError String
  exchangeRateCurrent : String → Int → Except PyError Int
  decimals : String → Except PyError Int

/-- Constant V2_C_ETHER of compound_liquidations.py: the cETH market
address, which has no underlying pointer. -/
def V2_C_ETHER : String := "0x4Ddc2D193948926D02f9B1fE9e1daa0718270ED5"

/-- Modelled from the spec: WETH_ADDRESS, imported by the source from
mev_inspect.classifiers.specs (not under src/) — the canonical
wrapped-native-asset identifier, a fixed constant. -/
def WETH_ADDRESS : String := "0xc02aaa39b223fe8d0a0e5c4f27ead9083c756cc2"

/-! Embedding of src/mev_inspect/compound_liquidations.py. -/

/-- Modelled from the spec: get_child_traces of mev_inspect.traces
(not under src/).  Per spec section 4.1, it returns every trace whose
transaction hash matches and whose trace address is a strict
descendant (the given address is a strict prefix of it), in the
original relative order. -/
def get_child_traces (transaction_hash : String) (trace_address : List Nat)
    (traces : List ClassifiedTrace) : List ClassifiedTrace :=
  traces.filter (fun t =>
    t.transaction_hash = transaction_hash ∧
    trace_address.isPrefixOf t.trace_address ∧
    t.trace_address ≠ trace_address)

/-- Source _get_seize_call: find the first call classified `seize` in
the child traces (a successful liquidation); nothing when absent. -/
def get_seize_call : List ClassifiedTrace → Option ClassifiedTrace
  | [] => none
  | t :: ts =>
    if t.classification = Classification.seize then some t else get_seize_call ts

/-- Source get_erc20_token_decimals: ERC20 `decimals()` query on the
checksum-canonicalised (here: lower-cased) token address. -/
def get_erc20_token_decimals (token_address : String) (w3 : Web3) :
    Except PyError Int :=
  w3.decimals (strLower token_address)

/-- Source get_underlying_ctoken_exchange_rate: query the raw
`exchangeRateCurrent` of the cToken at the given block, look the
lower-cased cToken address up in the market registry, query the two
decimals, and return `raw / 10 ^ (18 + d_u - d_c)` (exact, in ℚ). -/
def get_underlying_ctoken_exchange_rate (c_token_address : String)
    (block_number : Int) (w3 : Web3) (comp_markets : List (String × String)) :
    Except PyError ℚ := do
  let raw_exchange_rate ← w3.exchangeRateCurrent (strLower c_token_address) block_number
  let underlying_token_address ← mapGet comp_markets (strLower c_token_address)
  let decimals_in_underlying ← get_erc20_token_decimals underlying_token_address w3
  let decimals_in_ctoken ← get_erc20_token_decimals c_token_address w3
  return (raw_exchange_rate : ℚ) /
    (10 : ℚ) ^ ((18 + decimals_in_underlying - decimals_in_ctoken) : ℤ)

/-- Source get_all_comp_markets, loop body: for each enumerated market
other than the cETH market, query its underlying asset and record the
lower-cased pair in the mapping. -/
def marketsLoop (w3 : Web3) :
    List (String × String) → List String → Except PyError (List (String × String))
  | acc, [] => .ok acc
  | acc, c_token :: ms =>
    if c_token = V2_C_ETHER then marketsLoop w3 acc ms
    else do
      let underlying_token ← w3.underlying c_token
      marketsLoop w3 (dictSet acc (strLower c_token) (strLower underlying_token)) ms

/-- Source get_all_comp_markets: build the cToken-to-underlying
registry from the comptroller market enumeration, skipping cETH. -/
def get_all_comp_markets (w3 : Web3) : Except PyError (List (String × String)) :=
  marketsLoop w3 [] w3.getAllMarkets

/-- Body of the loop of source get_compound_liquidations for one
trace, in the evaluation order of the source: on a compound_v2
liquidate trace, collect the child traces, locate the seize child
(without checking it for None), read the `cTokenCollateral` input,
resolve the exchange rate, and then branch on the abi name, building
the record with the arguments of the `Liquidation` constructor call
evaluated in source order.  Returns `some` record, `none` when the
trace is skipped, or the Python error the source would raise. -/
def processTrace (traces : List ClassifiedTrace)
    (comp_markets : List (String × String)) (w3 : Web3)
    (trace : ClassifiedTrace) : Except PyError (Option Liquidation) :=
  if trace.classification = Classification.liquidate ∧
      trace.protocol = some Protocol.compound_v2 then do
    let child_traces := get_child_traces trace.transaction_hash trace.trace_address traces
    let seize_trace := get_seize_call child_traces
    let ctcValue ← dictGet trace.inputs "cTokenCollateral"
    let c_token_collateral ← ctcValue.asStr
    let underlying_exchange_rate ←
      get_underlying_ctoken_exchange_rate c_token_collateral trace.block_number w3 comp_markets
    if trace.abi_name = some "CEther" then do
      let liquidated_user ← dictGet trace.inputs "borrower"
      let debt_token_address ← mapGet comp_markets c_token_collateral
      let st ← derefOpt seize_trace
      let liquidator_user ← dictGet st.inputs "liquidator"
      let seizeTokensV ← dictGet st.inputs "seizeTokens"
      let seizeTokens ← seizeTokensV.asInt
      return some
        { liquidated_user := liquidated_user
          collateral_token_address := WETH_ADDRESS
          debt_token_address := debt_token_address
          liquidator_user := liquidator_user
          debt_purchase_amount := Value.int trace.value
          protocol := Protocol.compound_v2
          received_amount := (seizeTokens : ℚ) * underlying_exchange_rate
          transaction_hash := trace.transaction_hash
          trace_address := trace.trace_address
          block_number := trace.block_number }
    else if trace.abi_name = some "CToken" then do
      let liquidated_user ← dictGet trace.inputs "borrower"
      let collateral_token_address ← mapGet comp_markets trace.to_address
      let debt_token_address ← mapGet comp_markets c_token_collateral
      let st ← derefOpt seize_trace
      let liquidator_user ← dictGet st.inputs "liquidator"
      let debt_purchase_amount ← dictGet trace.inputs "repayAmount"
      let seizeTokensV ← dictGet st.inputs "seizeTokens"
      let seizeTokens ← seizeTokensV.asInt
      return some
        { liquidated_user := liquidated_user
          collateral_token_address := collateral_token_address
          debt_token_address := debt_token_address
          liquidator_user := liquidator_user
          debt_purchase_amount := debt_purchase_amount
          protocol := Protocol.compound_v2
          received_amount := (seizeTokens : ℚ) * underlying_exchange_rate
          transaction_hash := trace.transaction_hash
          trace_address := trace.trace_address
          block_number := trace.block_number }
    else
      return none
  else
    return none

/-- The trace loop of source get_compound_liquidations: process each
trace in input order against the full trace list; a raised error
aborts the whole loop, a skipped trace contributes nothing. -/
def liquidationsLoop (traces : List ClassifiedTrace)
    (comp_markets : List (String × String)) (w3 : Web3) :
    List ClassifiedTrace → Except PyError (List Liquidation)
  | [] => .ok []
  | t :: rest => do
    let r ← processTrace traces comp_markets w3 t
    let rs ← liquidationsLoop traces comp_markets w3 rest
    match r with
    | some l => return l :: rs
    | none => return rs

/-- Source get_compound_liquidations: inspect the classified traces
and identify liquidations, returning the records in input trace order,
or the first Python error raised. -/
def get_compound_liquidations (traces : List ClassifiedTrace)
    (comp_markets : List (String × String)) (w3 : Web3) :
    Except PyError (List Liquidation) :=
  liquidationsLoop traces comp_markets w3 traces

/-! Embedding of src/mev_inspect/strategy_inspectors/compound_v2_ceth.py. -/

/-- Collateral-source attribution of the repayment funds of the
liquidator. -/
inductive LiquidationCollateralSource where
  | searcher_eoa
  | searcher_contract
  | other
  deriving DecidableEq, Repr

/-- Liquidation status used by the ceth inspector. -/
inductive LiquidationStatus where
  | seized
  deriving DecidableEq, Repr

/-- Liquidation type used by the ceth inspector. -/
inductive LiquidationType where
  | compound_v2_ceth_liquidation
  deriving DecidableEq, Repr

/-- Modelled from the spec: the `Transaction` schema
(mev_inspect.schemas.blocks is not under src/), restricted to the
fields the inspector reads: the hash and the top-level addresses. -/
structure Transaction where
  tx_hash : String
  to_address : String
  from_address : String
  deriving DecidableEq, Repr

/-- Modelled from the spec: the `ClassifiedTrace` shape consumed by the
ceth inspector module, whose decoded fields (`to_address`,
`function_name`, `inputs`) can each be absent on an unclassified
trace. -/
structure CethClassifiedTrace where
  from_address : String
  to_address : Option String
  function_name : Option String
  inputs : Option (List (String × Value))
  value : Int
  deriving DecidableEq, Repr

/-- Modelled from the spec: the `Liquidation` record schema of the ceth
inspector module (mev_inspect.schemas.liquidations is not under src/),
with exactly the fields its constructor call populates. -/
structure CethLiquidation where
  tx_hash : String
  borrower : Value
  collateral_provided : String
  collateral_provided_amount : Int
  asset_seized : String
  asset_seized_amount : Int
  profit_in_eth : Int
  tokenflow_estimate_in_eth : Int
  tokenflow_diff : Int
  collateral_source : LiquidationCollateralSource
  status : LiquidationStatus
  type : LiquidationType
  deriving DecidableEq, Repr

/-- Modelled from the spec: the default-constructed `Liquidation()`
placeholder returned by the no-match path of the inspector — a zeroed
record that looks like a real zero-profit liquidation (spec section 9,
design note on the no-match path). -/
def defaultCethLiquidation : CethLiquidation :=
  { tx_hash := ""
    borrower := Value.str ""
    collateral_provided := ""
    collateral_provided_amount := 0
    asset_seized := ""
    asset_seized_amount := 0
    profit_in_eth := 0
    tokenflow_estimate_in_eth := 0
    tokenflow_diff := 0
    collateral_source := LiquidationCollateralSource.other
    status := LiquidationStatus.seized
    type := LiquidationType.compound_v2_ceth_liquidation }

/-- Source find_collateral_source: starting from `other`, scan every
trace; whenever a trace calls `liquidateBorrow` on the liquidation
contract, overwrite the running source with `searcher_contract` if the
lower-cased transaction destination equals the trace origin, else with
`searcher_eoa` if the lower-cased transaction origin equals the trace
origin, and otherwise leave the running source unchanged. -/
def find_collateral_source (classified_traces : List CethClassifiedTrace)
    (tx : Transaction) (liquidation_contract : Option String) :
    LiquidationCollateralSource :=
  classified_traces.foldl
    (fun source t =>
      if t.to_address = liquidation_contract ∧
          t.function_name = some "liquidateBorrow" then
        if strLower tx.to_address = t.from_address then
          LiquidationCollateralSource.searcher_contract
        else if strLower tx.from_address = t.from_address then
          LiquidationCollateralSource.searcher_eoa
        else source
      else source)
    LiquidationCollateralSource.other

/-- A trace that both calls `liquidateBorrow` on the liquidation
contract and matches one of the two address comparisons — exactly the
traces that overwrite the running source in find_collateral_source. -/
def relevantTrace (tx : Transaction) (liquidation_contract : Option String)
    (t : CethClassifiedTrace) : Bool :=
  decide (t.to_address = liquidation_contract ∧
    t.function_name = some "liquidateBorrow" ∧
    (strLower tx.to_address = t.from_address ∨
      strLower tx.from_address = t.from_address))

/-- Source inspect_compound_v2_ceth: return a record for the first
trace that decodes a `liquidateBorrow` call with inputs present; when
no trace matches, fall through to the default-constructed placeholder
record. -/
def inspect_compound_v2_ceth (w3 : Web3) (tx : Transaction)
    (classified_traces : List CethClassifiedTrace) :
    Except PyError CethLiquidation :=
  loop classified_traces
where
  /-- Iteration of the source for-loop over the classified traces. -/
  loop : List CethClassifiedTrace → Except PyError CethLiquidation
    | [] => .ok defaultCethLiquidation
    | t :: rest =>
      match t.function_name, t.inputs with
      | some "liquidateBorrow", some inp => do
        let source := find_collateral_source classified_traces tx t.to_address
        let borrower ← dictGet inp "borrower"
        let c_token_collateral ← dictGet inp "cTokenCollateral"
        let ctcKey ← c_token_collateral.asStr
        let markets ← get_all_comp_markets w3
        let asset_seized ← mapGet markets ctcKey
        return {
            tx_hash := tx.tx_hash
            borrower := borrower
            collateral_provided := "ether"
            collateral_provided_amount := t.value
            asset_seized := asset_seized
            asset_seized_amount := 0
            profit_in_eth := 0
            tokenflow_estimate_in_eth := 0
            tokenflow_diff := 0
            collateral_source := source
            status := LiquidationStatus.seized
            type := LiquidationType.compound_v2_ceth_liquidation }
      | _, _ => loop rest

deriving instance DecidableEq for Except

/-! Helper lemmas about lower-casing and the dictionary model. -/

/-- Evaluating Char.ofNat at a valid scalar value recovers the value. -/
theorem toNat_ofNat_valid (n : Nat) (h : Nat.isValidChar n) :
    (Char.ofNat n).toNat = n := by
  simp [Char.ofNat, Char.ofNatAux, Char.toNat, h]
  rfl

/-- Lower-casing a character twice is the same as lower-casing it
once. -/
theorem charToLower_idem (c : Char) : c.toLower.toLower = c.toLower := by
  unfold Char.toLower
  by_cases h : 65 ≤ c.toNat ∧ c.toNat ≤ 90
  · have hv : Nat.isValidChar (c.toNat + 32) := by
      left
      omega
    rw [if_pos h, toNat_ofNat_valid _ hv, if_neg (by omega)]
  · rw [if_neg h, if_neg h]

/-- Lower-casing a string is idempotent. -/
theorem strLower_idem (s : String) : strLower (strLower s) = strLower s := by
  simp [strLower, List.map_map, Function.comp_def, charToLower_idem]

/-- A string that is not its own lower-casing cannot be a key of a
dictionary all of whose keys are their own lower-casing. -/
theorem assocLookup_eq_none_of_upper {α : Type} (d : List (String × α))
    (s : String) (hkeys : ∀ p ∈ d, strLower p.1 = p.1) (hs : strLower s ≠ s) :
    assocLookup d s = none := by
  induction d with
  | nil => rfl
  | cons p d ih =>
    have hk : strLower p.1 = p.1 := hkeys p (by simp)
    have hne : p.1 ≠ s := by
      intro h
      subst h
      exact hs hk
    simp [assocLookup, hne]
    exact ih fun q hq => hkeys q (by simp [hq])

/-- No string lower-cases to the cETH constant, whose spelling is
mixed-case. -/
theorem strLower_ne_cether (s : String) : strLower s ≠ V2_C_ETHER := by
  intro h
  have h2 : strLower (strLower s) = strLower V2_C_ETHER := congrArg strLower h
  rw [strLower_idem, h] at h2
  exact absurd h2.symm (by decide)

/-! Claim C3: the rate converter formula. -/

/-- Claim C3: for a collateral token whose lower-casing is in the
registry with underlying `u`, with raw rate `r` queried at the given
block and decimals `du` and `dc`, get_underlying_ctoken_exchange_rate
returns exactly `r / 10 ^ (18 + du - dc)`. -/
theorem get_underlying_ctoken_exchange_rate_formula
    (w3 : Web3) (comp_markets : List (String × String)) (c u : String)
    (b r du dc : Int)
    (hreg : assocLookup comp_markets (strLower c) = some u)
    (hr : w3.exchangeRateCurrent (strLower c) b = .ok r)
    (hdu : w3.decimals (strLower u) = .ok du)
    (hdc : w3.decimals (strLower c) = .ok dc) :
    get_underlying_ctoken_exchange_rate c b w3 comp_markets =
      .ok ((r : ℚ) / (10 : ℚ) ^ ((18 + du - dc) : ℤ)) := by
  simp [get_underlying_ctoken_exchange_rate, get_erc20_token_decimals, mapGet,
    hreg, hr, hdu, hdc, bind, Except.bind, pure, Except.pure]

/-- Chain oracle for the C3 witness: one market with cToken decimals 8,
underlying decimals 6, and raw rate 5000 at block 9. -/
def c3W3 : Web3 :=
  { getAllMarkets := []
    underlying := fun _ => .error .chainError
    exchangeRateCurrent := fun a b =>
      if a = "0xctok" ∧ b = 9 then .ok 5000 else .error .chainError
    decimals := fun a =>
      if a = "0xund" then .ok 6
      else if a = "0xctok" then .ok 8
      else .error .chainError }

/-- Witness for claim C3 at a concrete market: the returned rate is
exactly 5000 / 10 ^ 16. -/
theorem get_underlying_ctoken_exchange_rate_formula_witness :
    get_underlying_ctoken_exchange_rate "0xctok" 9 c3W3 [("0xctok", "0xund")] =
      .ok ((5000 : ℚ) / (10 : ℚ) ^ ((18 + 6 - 8 : ℤ))) :=
  get_underlying_ctoken_exchange_rate_formula c3W3 [("0xctok", "0xund")]
    "0xctok" "0xund" 9 5000 6 8 (by decide) (by decide) (by decide) (by decide)

/-! Claims C4 and C5: the two call-shape variants of the
reconstructor. -/

/-- Claim C4: a compound_v2 liquidate trace matched as the
token-collateral variant (CToken abi, explicit repayAmount input, a
seize child found) emits a Liquidation whose collateral token is
`registry[trace.to_address]`, whose debt token is
`registry[inputs cTokenCollateral]`, whose debt purchase amount is the
repayAmount input, and whose received amount is the seizeTokens input
of the seize child multiplied by the converted rate. -/
theorem get_compound_liquidations_token_variant
    (rest : List ClassifiedTrace) (cm : List (String × String)) (w3 : Web3)
    (t st : ClassifiedTrace) (c collAddr debtAddr u : String)
    (r du dc z : Int) (borrower liquidator repayV : Value)
    (ls : List Liquidation)
    (hclass : t.classification = Classification.liquidate)
    (hproto : t.protocol = some Protocol.compound_v2)
    (habi : t.abi_name = some "CToken")
    (hctc : assocLookup t.inputs "cTokenCollateral" = some (Value.str c))
    (hx : w3.exchangeRateCurrent (strLower c) t.block_number = .ok r)
    (hreg : assocLookup cm (strLower c) = some u)
    (hdu : w3.decimals (strLower u) = .ok du)
    (hdc : w3.decimals (strLower c) = .ok dc)
    (hbor : assocLookup t.inputs "borrower" = some borrower)
    (hcoll : assocLookup cm t.to_address = some collAddr)
    (hdebt : assocLookup cm c = some debtAddr)
    (hseize : get_seize_call
      (get_child_traces t.transaction_hash t.trace_address (t :: rest)) = some st)
    (hliq : assocLookup st.inputs "liquidator" = some liquidator)
    (hrepay : assocLookup t.inputs "repayAmount" = some repayV)
    (hst : assocLookup st.inputs "seizeTokens" = some (Value.int z))
    (hrest : liquidationsLoop (t :: rest) cm w3 rest = .ok ls) :
    get_compound_liquidations (t :: rest) cm w3 =
      .ok ({ liquidated_user := borrower
             collateral_token_address := collAddr
             debt_token_address := debtAddr
             liquidator_user := liquidator
             debt_purchase_amount := repayV
             protocol := Protocol.compound_v2
             received_amount :=
               (z : ℚ) * ((r : ℚ) / (10 : ℚ) ^ ((18 + du - dc) : ℤ))
             transaction_hash := t.transaction_hash
             trace_address := t.trace_address
             block_number := t.block_number } :: ls) := by
  simp [get_compound_liquidations, liquidationsLoop, processTrace,
    get_underlying_ctoken_exchange_rate, get_erc20_token_decimals,
    dictGet, mapGet, derefOpt, Value.asStr, Value.asInt,
    hclass, hproto, habi, hctc, hx, hreg, hdu, hdc, hbor, hcoll, hdebt,
    hseize, hliq, hrepay, hst, hrest, bind, Except.bind, pure, Except.pure]

/-- Chain oracle of the end-to-end scenario of the spec: the cDAI
market resolves to an underlying-per-collateral rate of 0.02 at block
77 (raw rate 2e16, both decimals 8). -/
def c2W3 : Web3 :=
  { getAllMarkets := []
    underlying := fun _ => .error .chainError
    exchangeRateCurrent := fun a b =>
      if a = "0xc_dai" ∧ b = 77 then .ok (2 * 10 ^ 16) else .error .chainError
    decimals := fun a =>
      if a = "0xdai" ∨ a = "0xc_dai" then .ok 8 else .error .chainError }

/-- Market registry of the end-to-end scenario of the spec. -/
def c2Markets : List (String × String) :=
  [("0xc_dai", "0xdai"), ("0xc_usdc", "0xusdc")]

/-- The liquidate trace of the end-to-end scenario of the spec: a
compound_v2 CToken liquidation on the cUSDC market repaying 1000 with
cDAI named as the collateral-rate market. -/
def c2LiquidateTrace : ClassifiedTrace :=
  { transaction_hash := "0xtx"
    block_number := 77
    trace_address := []
    classification := Classification.liquidate
    protocol := some Protocol.compound_v2
    abi_name := some "CToken"
    from_address := "0xliq"
    to_address := "0xc_usdc"
    inputs := [("borrower", Value.str "0xB"),
               ("cTokenCollateral", Value.str "0xc_dai"),
               ("repayAmount", Value.int 1000)]
    value := 0 }

/-- The child seize trace of the end-to-end scenario of the spec,
seizing 500 collateral units for liquidator 0xL. -/
def c2SeizeTrace : ClassifiedTrace :=
  { transaction_hash := "0xtx"
    block_number := 77
    trace_address := [0]
    classification := Classification.seize
    protocol := some Protocol.compound_v2
    abi_name := some "CToken"
    from_address := "0xc_usdc"
    to_address := "0xc_dai"
    inputs := [("liquidator", Value.str "0xL"), ("seizeTokens", Value.int 500)]
    value := 0 }

/-- Witness for claim C4 on the concrete spec scenario: the emitted
record takes its collateral token from the registry entry of the
called contract, its debt token from the registry entry of the
cTokenCollateral input, its debt purchase amount from repayAmount, and
its received amount from seizeTokens times the converted rate. -/
theorem get_compound_liquidations_token_variant_witness :
    get_compound_liquidations [c2LiquidateTrace, c2SeizeTrace] c2Markets c2W3 =
      .ok [{ liquidated_user := Value.str "0xB"
             collateral_token_address := "0xusdc"
             debt_token_address := "0xdai"
             liquidator_user := Value.str "0xL"
             debt_purchase_amount := Value.int 1000
             protocol := Protocol.compound_v2
             received_amount :=
               ((500 : ℤ) : ℚ) *
                 (((2 * 10 ^ 16 : ℤ) : ℚ) / (10 : ℚ) ^ ((18 + 8 - 8 : ℤ)))
             transaction_hash := "0xtx"
             trace_address := []
             block_number := 77 }] :=
  get_compound_liquidations_token_variant [c2SeizeTrace] c2Markets c2W3
    c2LiquidateTrace c2SeizeTrace "0xc_dai" "0xusdc" "0xdai" "0xdai"
    (2 * 10 ^ 16) 8 8 500 (Value.str "0xB") (Value.str "0xL")
    (Value.int 1000) [] (by decide) (by decide) (by decide) (by decide)
    (by decide) (by decide) (by decide) (by decide) (by decide) (by decide)
    (by decide) (by decide) (by decide) (by decide) (by decide) (by decide)

/-- Claim C5: a compound_v2 liquidate trace matched as the
native-asset-collateral variant (CEther abi, nonzero native value,
a seize child found) emits a Liquidation whose collateral token is the
fixed wrapped-native-asset constant WETH_ADDRESS, whose debt token is
`registry[inputs cTokenCollateral]`, whose debt purchase amount is the
native value of the call, and whose received amount is the seizeTokens
input of the seize child multiplied by the converted rate. -/
theorem get_compound_liquidations_cether_variant
    (rest : List ClassifiedTrace) (cm : List (String × String)) (w3 : Web3)
    (t st : ClassifiedTrace) (c debtAddr u : String)
    (r du dc z : Int) (borrower liquidator : Value) (ls : List Liquidation)
    (hclass : t.classification = Classification.liquidate)
    (hproto : t.protocol = some Protocol.compound_v2)
    (habi : t.abi_name = some "CEther")
    (hval : t.value ≠ 0)
    (hctc : assocLookup t.inputs "cTokenCollateral" = some (Value.str c))
    (hx : w3.exchangeRateCurrent (strLower c) t.block_number = .ok r)
    (hreg : assocLookup cm (strLower c) = some u)
    (hdu : w3.decimals (strLower u) = .ok du)
    (hdc : w3.decimals (strLower c) = .ok dc)
    (hbor : assocLookup t.inputs "borrower" = some borrower)
    (hdebt : assocLookup cm c = some debtAddr)
    (hseize : get_seize_call
      (get_child_traces t.transaction_hash t.trace_address (t :: rest)) = some st)
    (hliq : assocLookup st.inputs "liquidator" = some liquidator)
    (hst : assocLookup st.inputs "seizeTokens" = some (Value.int z))
    (hrest : liquidationsLoop (t :: rest) cm w3 rest = .ok ls) :
    get_compound_liquidations (t :: rest) cm w3 =
      .ok ({ liquidated_user := borrower
             collateral_token_address := WETH_ADDRESS
             debt_token_address := debtAddr
             liquidator_user := liquidator
             debt_purchase_amount := Value.int t.value
             protocol := Protocol.compound_v2
             received_amount :=
               (z : ℚ) * ((r : ℚ) / (10 : ℚ) ^ ((18 + du - dc) : ℤ))
             transaction_hash := t.transaction_hash
             trace_address := t.trace_address
             block_number := t.block_number } :: ls) := by
  simp [get_compound_liquidations, liquidationsLoop, processTrace,
    get_underlying_ctoken_exchange_rate, get_erc20_token_decimals,
    dictGet, mapGet, derefOpt, Value.asStr, Value.asInt,
    hclass, hproto, habi, hctc, hx, hreg, hdu, hdc, hbor, hdebt,
    hseize, hliq, hst, hrest, bind, Except.bind, pure, Except.pure]

/-- The liquidate trace of the CEther scenario: a compound_v2
liquidation on the cETH market, repaying 3000 wei of native value,
with cDAI named as the collateral-rate market. -/
def c5LiquidateTrace : ClassifiedTrace :=
  { transaction_hash := "0xtx5"
    block_number := 77
    trace_address := []
    classification := Classification.liquidate
    protocol := some Protocol.compound_v2
    abi_name := some "CEther"
    from_address := "0xliq"
    to_address := "0xceth"
    inputs := [("borrower", Value.str "0xB"),
               ("cTokenCollateral", Value.str "0xc_dai")]
    value := 3000 }

/-- The child seize trace of the CEther scenario. -/
def c5SeizeTrace : ClassifiedTrace :=
  { transaction_hash := "0xtx5"
    block_number := 77
    trace_address := [0]
    classification := Classification.seize
    protocol := some Protocol.compound_v2
    abi_name := some "CEther"
    from_address := "0xceth"
    to_address := "0xc_dai"
    inputs := [("liquidator", Value.str "0xL"), ("seizeTokens", Value.int 500)]
    value := 0 }

/-- Witness for claim C5 on a concrete CEther liquidation: the
collateral token is the WETH constant and the debt purchase amount is
the native value of the call. -/
theorem get_compound_liquidations_cether_variant_witness :
    get_compound_liquidations [c5LiquidateTrace, c5SeizeTrace] c2Markets c2W3 =
      .ok [{ liquidated_user := Value.str "0xB"
             collateral_token_address := WETH_ADDRESS
             debt_token_address := "0xdai"
             liquidator_user := Value.str "0xL"
             debt_purchase_amount := Value.int 3000
             protocol := Protocol.compound_v2
             received_amount :=
               ((500 : ℤ) : ℚ) *
                 (((2 * 10 ^ 16 : ℤ) : ℚ) / (10 : ℚ) ^ ((18 + 8 - 8 : ℤ)))
             transaction_hash := "0xtx5"
             trace_address := []
             block_number := 77 }] :=
  get_compound_liquidations_cether_variant [c5SeizeTrace] c2Markets c2W3
    c5LiquidateTrace c5SeizeTrace "0xc_dai" "0xdai" "0xdai"
    (2 * 10 ^ 16) 8 8 500 (Value.str "0xB") (Value.str "0xL") []
    (by decide) (by decide) (by decide) (by decide) (by decide) (by decide)
    (by decide) (by decide) (by decide) (by decide) (by decide) (by decide)
    (by decide) (by decide) (by decide)

/-! Claim C2: the end-to-end scenario of the spec. -/

/-- The single record that the engine in fact emits on the end-to-end
scenario of the spec. -/
def c2CodeRecord : Liquidation :=
  { liquidated_user := Value.str "0xB"
    collateral_token_address := "0xusdc"
    debt_token_address := "0xdai"
    liquidator_user := Value.str "0xL"
    debt_purchase_amount := Value.int 1000
    protocol := Protocol.compound_v2
    received_amount := 10
    transaction_hash := "0xtx"
    trace_address := []
    block_number := 77 }

/-- Claim C2, counterexample: on the exact scenario of the spec (cUSDC
liquidate trace with repayAmount 1000, cDAI collateral-rate market,
seize child with 500 seize tokens, rate 0.02), the engine emits
exactly one record, and that record's debt token is not 0xusdc and its
collateral token is not 0xdai — the two assignments are the other way
around in the code. -/
theorem c2_counterexample :
    get_compound_liquidations [c2LiquidateTrace, c2SeizeTrace] c2Markets c2W3 =
      .ok [c2CodeRecord] ∧
    (c2CodeRecord.debt_token_address == "0xusdc") = false ∧
    (c2CodeRecord.collateral_token_address == "0xdai") = false := by
  refine ⟨?_, by decide, by decide⟩
  simp +decide [get_compound_liquidations, liquidationsLoop, processTrace,
    get_underlying_ctoken_exchange_rate, get_erc20_token_decimals,
    get_child_traces, get_seize_call, dictGet, mapGet, assocLookup, strLower,
    derefOpt, Value.asStr, Value.asInt, c2W3, c2Markets, c2LiquidateTrace,
    c2SeizeTrace, c2CodeRecord, bind, Except.bind, pure, Except.pure]
  norm_num

/-- Claim C2, amended: on the scenario of the spec the engine emits
exactly one Liquidation, with debt_token_address 0xdai (the registry
entry of the cTokenCollateral input), collateral_token_address 0xusdc
(the registry entry of the called contract), debt_purchase_amount
1000 and received_amount 10. -/
theorem c2_amended :
    get_compound_liquidations [c2LiquidateTrace, c2SeizeTrace] c2Markets c2W3 =
      .ok [{ liquidated_user := Value.str "0xB"
             collateral_token_address := "0xusdc"
             debt_token_address := "0xdai"
             liquidator_user := Value.str "0xL"
             debt_purchase_amount := Value.int 1000
             protocol := Protocol.compound_v2
             received_amount := 10
             transaction_hash := "0xtx"
             trace_address := []
             block_number := 77 }] := by
  simp +decide [get_compound_liquidations, liquidationsLoop, processTrace,
    get_underlying_ctoken_exchange_rate, get_erc20_token_decimals,
    get_child_traces, get_seize_call, dictGet, mapGet, assocLookup, strLower,
    derefOpt, Value.asStr, Value.asInt, c2W3, c2Markets, c2LiquidateTrace,
    c2SeizeTrace, bind, Except.bind, pure, Except.pure]
  norm_num

/-! Claim C1: behaviour on a liquidate trace with no seize child. -/

/-- A compound_v2 CEther liquidate trace with no child traces at all
(hence zero seize-classified descendants); its inputs, registry entry
and chain data are all well formed. -/
def c1Trace : ClassifiedTrace :=
  { transaction_hash := "0xtx1"
    block_number := 77
    trace_address := []
    classification := Classification.liquidate
    protocol := some Protocol.compound_v2
    abi_name := some "CEther"
    from_address := "0xliq"
    to_address := "0xceth"
    inputs := [("borrower", Value.str "0xB"),
               ("cTokenCollateral", Value.str "0xc_dai")]
    value := 3000 }

/-- Claim C1, failing input: on a compound_v2 CEther liquidate trace
with zero seize-classified descendants the engine does not silently
skip the trace — the unconditional dereference of the absent seize
trace raises (the code reads seize_trace.inputs while seize_trace is
None), so the pass aborts with an AttributeError instead of emitting
nothing and no error. -/
theorem c1_no_seize_raises :
    get_compound_liquidations [c1Trace] c2Markets c2W3 =
      .error PyError.attributeError := by
  decide

/-! Claim C7: failure policy of the reconstruction pass. -/

/-- Claim C7, amended: a failure while reconstructing one trace (here:
the expected cTokenCollateral input key is missing) is not scoped to
that trace — it propagates and aborts the whole pass, returning the
error and no records at all, whatever the remaining traces hold; the
engine has no error-collecting mode and its only return shape is a
bare record list. -/
theorem c7_abort_whole_pass (t : ClassifiedTrace) (rest : List ClassifiedTrace)
    (cm : List (String × String)) (w3 : Web3)
    (hclass : t.classification = Classification.liquidate)
    (hproto : t.protocol = some Protocol.compound_v2)
    (hmiss : assocLookup t.inputs "cTokenCollateral" = none) :
    get_compound_liquidations (t :: rest) cm w3 =
      .error (PyError.keyError "cTokenCollateral") := by
  simp [get_compound_liquidations, liquidationsLoop, processTrace, dictGet,
    hclass, hproto, hmiss, bind, Except.bind]

/-- A compound_v2 liquidate trace whose decoded inputs lack every
expected key. -/
def c7BadTrace : ClassifiedTrace :=
  { transaction_hash := "0xtx7"
    block_number := 77
    trace_address := []
    classification := Classification.liquidate
    protocol := some Protocol.compound_v2
    abi_name := some "CToken"
    from_address := "0xliq"
    to_address := "0xc_usdc"
    inputs := []
    value := 0 }

/-- Witness for claim C7 (amended): with a malformed liquidate trace
followed by a fully well-formed liquidation, the pass aborts with the
KeyError and returns no records. -/
theorem c7_abort_whole_pass_witness :
    get_compound_liquidations [c7BadTrace, c2LiquidateTrace, c2SeizeTrace]
      c2Markets c2W3 = .error (PyError.keyError "cTokenCollateral") :=
  c7_abort_whole_pass c7BadTrace [c2LiquidateTrace, c2SeizeTrace] c2Markets c2W3
    (by decide) (by decide) (by decide)

/-- Claim C7, counterexample: one malformed trace costs the entire
pass.  On the list [malformed, well-formed liquidation, its seize
child] the engine returns only a KeyError and no records, although the
same well-formed liquidation alone yields a record — there is no
per-trace error scoping and no (records, errors) return mode. -/
theorem c7_counterexample :
    get_compound_liquidations [c7BadTrace, c2LiquidateTrace, c2SeizeTrace]
        c2Markets c2W3 = .error (PyError.keyError "cTokenCollateral") ∧
    get_compound_liquidations [c2LiquidateTrace, c2SeizeTrace] c2Markets c2W3 =
      .ok [{ liquidated_user := Value.str "0xB"
             collateral_token_address := "0xusdc"
             debt_token_address := "0xdai"
             liquidator_user := Value.str "0xL"
             debt_purchase_amount := Value.int 1000
             protocol := Protocol.compound_v2
             received_amount := 10
             transaction_hash := "0xtx"
             trace_address := []
             block_number := 77 }] := by
  constructor
  · decide
  · simp +decide [get_compound_liquidations, liquidationsLoop, processTrace,
      get_underlying_ctoken_exchange_rate, get_erc20_token_decimals,
      get_child_traces, get_seize_call, dictGet, mapGet, assocLookup, strLower,
      derefOpt, Value.asStr, Value.asInt, c2W3, c2Markets, c2LiquidateTrace,
      c2SeizeTrace, bind, Except.bind, pure, Except.pure]
    norm_num

/-! Claim C6: shape of the registry built by get_all_comp_markets. -/

/-- A dictionary with no entry for a key looks the key up to
nothing. -/
theorem lookup_none_of_any_false (d : List (String × String)) (k : String)
    (h : d.any (fun p => p.1 = k) = false) : assocLookup d k = none := by
  induction d with
  | nil => rfl
  | cons p d ih =>
    obtain ⟨pk, pv⟩ := p
    simp at h
    rw [assocLookup, if_neg h.1]
    exact ih (by simp; exact h.2)

/-- Overwriting every entry of a key makes the key look up the new
value, provided some entry holds the key. -/
theorem lookup_map_overwrite_self (d : List (String × String)) (k v : String)
    (h : d.any (fun p => p.1 = k) = true) :
    assocLookup (d.map (fun p => if p.1 = k then (k, v) else p)) k = some v := by
  induction d with
  | nil => simp at h
  | cons p d ih =>
    obtain ⟨pk, pv⟩ := p
    by_cases hp : pk = k
    · simp only [List.map_cons, if_pos hp]
      rw [assocLookup, if_pos rfl]
    · simp only [List.map_cons, if_neg hp]
      rw [assocLookup, if_neg hp]
      simp [hp] at h
      exact ih (by simp [h])

/-- Overwriting entries of one key does not change the lookup of a
different key. -/
theorem lookup_map_overwrite_ne (d : List (String × String)) (k v q : String)
    (h : k ≠ q) :
    assocLookup (d.map (fun p => if p.1 = k then (k, v) else p)) q =
      assocLookup d q := by
  induction d with
  | nil => rfl
  | cons p d ih =>
    obtain ⟨pk, pv⟩ := p
    by_cases hp : pk = k
    · simp only [List.map_cons, if_pos hp]
      rw [assocLookup, if_neg h, assocLookup, if_neg (by rw [hp]; exact h), ih]
    · simp only [List.map_cons, if_neg hp]
      rw [assocLookup, assocLookup, ih]

/-- Appending a singleton binding: lookups of its key that fail on the
left find it. -/
theorem lookup_append_single_self (d : List (String × String)) (k v : String)
    (h : assocLookup d k = none) :
    assocLookup (d ++ [(k, v)]) k = some v := by
  induction d with
  | nil => simp [assocLookup]
  | cons p d ih =>
    obtain ⟨pk, pv⟩ := p
    rw [assocLookup] at h
    by_cases hp : pk = k
    · rw [if_pos hp] at h
      exact absurd h (by simp)
    · rw [if_neg hp] at h
      rw [List.cons_append, assocLookup, if_neg hp]
      exact ih h

/-- Appending a singleton binding does not change the lookup of a
different key. -/
theorem lookup_append_single_ne (d : List (String × String)) (k v q : String)
    (h : k ≠ q) : assocLookup (d ++ [(k, v)]) q = assocLookup d q := by
  induction d with
  | nil => simp [assocLookup, h]
  | cons p d ih =>
    obtain ⟨pk, pv⟩ := p
    rw [List.cons_append, assocLookup, assocLookup, ih]

/-- Looking a key up after a dictionary assignment to it finds the
assigned value. -/
theorem assocLookup_dictSet_self (d : List (String × String)) (k v : String) :
    assocLookup (dictSet d k v) k = some v := by
  unfold dictSet
  by_cases h : d.any (fun p => p.1 = k)
  · rw [if_pos h]
    exact lookup_map_overwrite_self d k v h
  · rw [if_neg h]
    exact lookup_append_single_self d k v
      (lookup_none_of_any_false d k (Bool.eq_false_iff.mpr h))

/-- A dictionary assignment to one key leaves the lookup of a
different key unchanged. -/
theorem assocLookup_dictSet_ne (d : List (String × String)) (k v q : String)
    (h : k ≠ q) : assocLookup (dictSet d k v) q = assocLookup d q := by
  unfold dictSet
  by_cases ha : d.any (fun p => p.1 = k)
  · rw [if_pos ha]
    exact lookup_map_overwrite_ne d k v q h
  · rw [if_neg ha]
    exact lookup_append_single_ne d k v q h

/-- A binding survives the registry-building loop when none of the
remaining (non-cETH) markets lower-cases to its key. -/
theorem marketsLoop_preserve (w3 : Web3) :
    ∀ (ms : List String) (acc reg : List (String × String)) (k v : String),
      marketsLoop w3 acc ms = .ok reg →
      assocLookup acc k = some v →
      (∀ m ∈ ms, m ≠ V2_C_ETHER → strLower m ≠ k) →
      assocLookup reg k = some v := by
  intro ms
  induction ms with
  | nil =>
    intro acc reg k v hloop hacc _
    simp [marketsLoop] at hloop
    rw [← hloop]
    exact hacc
  | cons c ms ih =>
    intro acc reg k v hloop hacc hfresh
    by_cases hc : c = V2_C_ETHER
    · rw [marketsLoop, if_pos hc] at hloop
      exact ih acc reg k v hloop hacc
        (fun m hm => hfresh m (by simp [hm]))
    · cases hu : w3.underlying c with
      | error e =>
        rw [marketsLoop, if_neg hc] at hloop
        simp [hu, bind, Except.bind] at hloop
      | ok u =>
        rw [marketsLoop, if_neg hc] at hloop
        simp only [hu, bind, Except.bind] at hloop
        refine ih _ reg k v hloop ?_ (fun m hm => hfresh m (by simp [hm]))
        rw [assocLookup_dictSet_ne _ _ _ _ (hfresh c (by simp) hc)]
        exact hacc

/-- An absent key stays absent through the registry-building loop when
none of the remaining (non-cETH) markets lower-cases to it. -/
theorem marketsLoop_absent (w3 : Web3) :
    ∀ (ms : List String) (acc reg : List (String × String)) (k : String),
      marketsLoop w3 acc ms = .ok reg →
      assocLookup acc k = none →
      (∀ m ∈ ms, m ≠ V2_C_ETHER → strLower m ≠ k) →
      assocLookup reg k = none := by
  intro ms
  induction ms with
  | nil =>
    intro acc reg k hloop hacc _
    simp [marketsLoop] at hloop
    rw [← hloop]
    exact hacc
  | cons c ms ih =>
    intro acc reg k hloop hacc hfresh
    by_cases hc : c = V2_C_ETHER
    · rw [marketsLoop, if_pos hc] at hloop
      exact ih acc reg k hloop hacc (fun m hm => hfresh m (by simp [hm]))
    · cases hu : w3.underlying c with
      | error e =>
        rw [marketsLoop, if_neg hc] at hloop
        simp [hu, bind, Except.bind] at hloop
      | ok u =>
        rw [marketsLoop, if_neg hc] at hloop
        simp only [hu, bind, Except.bind] at hloop
        refine ih _ reg k hloop ?_ (fun m hm => hfresh m (by simp [hm]))
        rw [assocLookup_dictSet_ne _ _ _ _ (hfresh c (by simp) hc)]
        exact hacc

/-- Every non-cETH market processed by the registry-building loop gets
a registry entry from its lower-cased address to its lower-cased
underlying address, provided the lower-cased market addresses are
pairwise distinct. -/
theorem marketsLoop_insert (w3 : Web3) :
    ∀ (ms : List String) (acc reg : List (String × String)) (m : String),
      marketsLoop w3 acc ms = .ok reg →
      (ms.map strLower).Nodup →
      m ∈ ms → m ≠ V2_C_ETHER →
      ∃ u, w3.underlying m = .ok u ∧
        assocLookup reg (strLower m) = some (strLower u) := by
  intro ms
  induction ms with
  | nil => intro _ _ _ _ _ hm; cases hm
  | cons c ms ih =>
    intro acc reg m hloop hnd hm hmne
    rw [List.map_cons, List.nodup_cons] at hnd
    rcases List.mem_cons.mp hm with hm | hm
    · subst hm
      cases hu : w3.underlying m with
      | error e =>
        rw [marketsLoop, if_neg hmne] at hloop
        simp [hu, bind, Except.bind] at hloop
      | ok u =>
        rw [marketsLoop, if_neg hmne] at hloop
        simp only [hu, bind, Except.bind] at hloop
        refine ⟨u, rfl, marketsLoop_preserve w3 ms _ reg _ _ hloop
          (assocLookup_dictSet_self _ _ _) ?_⟩
        intro m' hm' _ heq
        exact hnd.1 (heq ▸ List.mem_map_of_mem strLower hm')
    · by_cases hc : c = V2_C_ETHER
      · rw [marketsLoop, if_pos hc] at hloop
        exact ih acc reg m hloop hnd.2 hm hmne
      · cases hu : w3.underlying c with
        | error e =>
          rw [marketsLoop, if_neg hc] at hloop
          simp [hu, bind, Except.bind] at hloop
        | ok u =>
          rw [marketsLoop, if_neg hc] at hloop
          simp only [hu, bind, Except.bind] at hloop
          exact ih _ reg m hloop hnd.2 hm hmne

/-- Claim C6: when the registry build succeeds on a market enumeration
whose lower-cased addresses are pairwise distinct and in which the
cETH market only ever appears in its canonical spelling, the registry
maps the lower-cased address of every market other than cETH to the
lower-cased address of its underlying asset, and holds no entry for
the cETH market address (neither under its lower-cased key form nor
under its exact spelling). -/
theorem get_all_comp_markets_spec (w3 : Web3) (reg : List (String × String))
    (hok : get_all_comp_markets w3 = .ok reg)
    (hnd : (w3.getAllMarkets.map strLower).Nodup)
    (hce : ∀ m ∈ w3.getAllMarkets,
      strLower m = strLower V2_C_ETHER → m = V2_C_ETHER) :
    (∀ m ∈ w3.getAllMarkets, m ≠ V2_C_ETHER →
        ∃ u, w3.underlying m = .ok u ∧
          assocLookup reg (strLower m) = some (strLower u)) ∧
    assocLookup reg (strLower V2_C_ETHER) = none ∧
    assocLookup reg V2_C_ETHER = none := by
  unfold get_all_comp_markets at hok
  refine ⟨fun m hm hmne => marketsLoop_insert w3 w3.getAllMarkets [] reg m
    hok hnd hm hmne, ?_, ?_⟩
  · refine marketsLoop_absent w3 w3.getAllMarkets [] reg _ hok rfl ?_
    intro m hm hmne heq
    exact hmne (hce m hm heq)
  · refine marketsLoop_absent w3 w3.getAllMarkets [] reg _ hok rfl ?_
    intro m _ _
    exact strLower_ne_cether m

/-- Chain oracle for the C6 witness: the comptroller enumerates one
ordinary market plus the cETH market. -/
def c6W3 : Web3 :=
  { getAllMarkets := ["0xCDai", V2_C_ETHER]
    underlying := fun a => if a = "0xCDai" then .ok "0xDai" else .error .chainError
    exchangeRateCurrent := fun _ _ => .error .chainError
    decimals := fun _ => .error .chainError }

/-- Witness for claim C6 on a concrete enumeration: the registry holds
the lower-cased pair for the ordinary market and nothing for cETH. -/
theorem get_all_comp_markets_spec_witness :
    (∀ m ∈ c6W3.getAllMarkets, m ≠ V2_C_ETHER →
        ∃ u, c6W3.underlying m = .ok u ∧
          assocLookup [("0xcdai", "0xdai")] (strLower m) = some (strLower u)) ∧
    assocLookup [("0xcdai", "0xdai")] (strLower V2_C_ETHER) = none ∧
    assocLookup [("0xcdai", "0xdai")] V2_C_ETHER = none :=
  get_all_comp_markets_spec c6W3 [("0xcdai", "0xdai")]
    (by decide) (by decide) (by decide)

/-! Claim C9: the collateral source attributor. -/

/-- The last trace of the list that is relevant to the attributor
(calls liquidateBorrow on the liquidation contract and matches one of
the two address comparisons), if any. -/
def lastRelevant (tx : Transaction) (liquidation_contract : Option String) :
    List CethClassifiedTrace → Option CethClassifiedTrace
  | [] => none
  | t :: ts =>
    match lastRelevant tx liquidation_contract ts with
    | some r => some r
    | none => if relevantTrace tx liquidation_contract t then some t else none

/-- Folding the attributor body over a trace list from any starting
source yields the verdict of the last relevant trace, or the starting
source when no trace is relevant. -/
theorem fcsFoldChar (tx : Transaction) (contract : Option String) :
    ∀ (ts : List CethClassifiedTrace) (s : LiquidationCollateralSource),
      List.foldl
        (fun source t =>
          if t.to_address = contract ∧ t.function_name = some "liquidateBorrow" then
            if strLower tx.to_address = t.from_address then
              LiquidationCollateralSource.searcher_contract
            else if strLower tx.from_address = t.from_address then
              LiquidationCollateralSource.searcher_eoa
            else source
          else source) s ts =
      match lastRelevant tx contract ts with
      | none => s
      | some t =>
        if strLower tx.to_address = t.from_address then
          LiquidationCollateralSource.searcher_contract
        else LiquidationCollateralSource.searcher_eoa := by
  intro ts
  induction ts with
  | nil => intro s; rfl
  | cons t ts ih =>
    intro s
    rw [List.foldl_cons, ih]
    cases h : lastRelevant tx contract ts with
    | some r => simp [lastRelevant, h]
    | none =>
      simp only [lastRelevant, h]
      by_cases hr : relevantTrace tx contract t = true
      · unfold relevantTrace at hr
        have hp := of_decide_eq_true hr
        obtain ⟨h1, h2, h3⟩ := hp
        have hrb : relevantTrace tx contract t = true := by
          unfold relevantTrace
          exact decide_eq_true ⟨h1, h2, h3⟩
        simp only [hrb, if_true]
        rw [if_pos ⟨h1, h2⟩]
        by_cases hc1 : strLower tx.to_address = t.from_address
        · rw [if_pos hc1, if_pos hc1]
        · have hc2 : strLower tx.from_address = t.from_address := h3.resolve_left hc1
          rw [if_neg hc1, if_pos hc2, if_neg hc1]
      · have hrb : relevantTrace tx contract t = false :=
          Bool.eq_false_iff.mpr hr
        simp only [hrb, Bool.false_eq_true, if_false]
        have hp : ¬ (t.to_address = contract ∧
            t.function_name = some "liquidateBorrow" ∧
            (strLower tx.to_address = t.from_address ∨
              strLower tx.from_address = t.from_address)) := by
          intro hx
          exact hr (by unfold relevantTrace; exact decide_eq_true hx)
        by_cases hm : t.to_address = contract ∧
            t.function_name = some "liquidateBorrow"
        · rw [if_pos hm]
          have hc1 : ¬ strLower tx.to_address = t.from_address :=
            fun hc => hp ⟨hm.1, hm.2, Or.inl hc⟩
          have hc2 : ¬ strLower tx.from_address = t.from_address :=
            fun hc => hp ⟨hm.1, hm.2, Or.inr hc⟩
          rw [if_neg hc1, if_neg hc2]
        · rw [if_neg hm]

/-- Claim C9, amended: the attributor's verdict is decided by the LAST
trace that calls liquidateBorrow on the liquidation contract and
matches one of the two comparisons (each match overwrites the running
verdict), with the transaction addresses lower-cased before comparing
and the trace origin compared as given: searcher_contract when the
lower-cased transaction destination equals that trace's origin, else
searcher_eoa; and `other` when no trace matches either comparison
(in particular when no liquidateBorrow trace exists at all). -/
theorem find_collateral_source_characterization
    (classified_traces : List CethClassifiedTrace) (tx : Transaction)
    (liquidation_contract : Option String) :
    find_collateral_source classified_traces tx liquidation_contract =
      match lastRelevant tx liquidation_contract classified_traces with
      | none => LiquidationCollateralSource.other
      | some t =>
        if strLower tx.to_address = t.from_address then
          LiquidationCollateralSource.searcher_contract
        else LiquidationCollateralSource.searcher_eoa := by
  unfold find_collateral_source
  exact fcsFoldChar tx liquidation_contract classified_traces
    LiquidationCollateralSource.other

/-- The transaction of the C9 counterexample: destination 0xt, origin
0xf. -/
def c9Tx : Transaction :=
  { tx_hash := "0xh", to_address := "0xt", from_address := "0xf" }

/-- First liquidateBorrow call of the C9 counterexample, originating
from the transaction destination (a searcher contract by the claim). -/
def c9Trace1 : CethClassifiedTrace :=
  { from_address := "0xt"
    to_address := some "0xc"
    function_name := some "liquidateBorrow"
    inputs := none
    value := 0 }

/-- Second liquidateBorrow call of the C9 counterexample, originating
from the transaction origin. -/
def c9Trace2 : CethClassifiedTrace :=
  { from_address := "0xf"
    to_address := some "0xc"
    function_name := some "liquidateBorrow"
    inputs := none
    value := 0 }

/-- Claim C9, counterexample: a trace calling liquidateBorrow on the
liquidation contract whose origin equals the transaction's destination
exists, yet the attributor does not return searcher_contract — a later
matching trace overwrote the verdict with searcher_eoa. -/
theorem c9_counterexample :
    find_collateral_source [c9Trace1, c9Trace2] c9Tx (some "0xc") =
      LiquidationCollateralSource.searcher_eoa ∧
    c9Trace1.to_address = some "0xc" ∧
    c9Trace1.function_name = some "liquidateBorrow" ∧
    c9Tx.to_address = c9Trace1.from_address := by
  decide

/-! Claim C8: the no-match path of the ceth inspector. -/

/-- Transaction for the C8 evaluation. -/
def c8Tx : Transaction :=
  { tx_hash := "0xh8", to_address := "0xt", from_address := "0xf" }

/-- A classified trace that is not a liquidateBorrow call. -/
def c8OtherTrace : CethClassifiedTrace :=
  { from_address := "0xa"
    to_address := some "0xb"
    function_name := some "transfer"
    inputs := some []
    value := 0 }

/-- Claim C8, failing input: when no trace decodes a liquidateBorrow
call, inspect_compound_v2_ceth does not produce an optional/absent
result — it successfully returns the default-constructed zeroed
placeholder record, indistinguishable by type from a real
liquidation. -/
theorem c8_no_match_returns_placeholder :
    inspect_compound_v2_ceth c6W3 c8Tx [] = .ok defaultCethLiquidation ∧
    inspect_compound_v2_ceth c6W3 c8Tx [c8OtherTrace] =
      .ok defaultCethLiquidation := by
  decide

/-! Claim C10: case sensitivity of the registry lookups inside the
reconstructor. -/

/-- Claim C10, amended: the registry is keyed by lower-cased addresses
but the two record-field lookups of the reconstructor do not lower
their keys, so the lookups that are actually performed fail on a
non-lower-cased key even when the market is present under its
lower-cased form: in the CEther branch the cTokenCollateral input is
looked up as given (first conjunct), and in the CToken branch the
trace to_address is looked up as given (second conjunct); the
to_address of a CEther-branch trace is never looked up, so its casing
is irrelevant there. -/
theorem c10_upper_lookup_fails :
    (∀ (t : ClassifiedTrace) (rest : List ClassifiedTrace)
        (cm : List (String × String)) (w3 : Web3) (s u : String)
        (r du dc : Int) (borrower : Value),
      t.classification = Classification.liquidate →
      t.protocol = some Protocol.compound_v2 →
      t.abi_name = some "CEther" →
      assocLookup t.inputs "cTokenCollateral" = some (Value.str s) →
      strLower s ≠ s →
      (∀ p ∈ cm, strLower p.1 = p.1) →
      assocLookup cm (strLower s) = some u →
      w3.exchangeRateCurrent (strLower s) t.block_number = .ok r →
      w3.decimals (strLower u) = .ok du →
      w3.decimals (strLower s) = .ok dc →
      assocLookup t.inputs "borrower" = some borrower →
      get_compound_liquidations (t :: rest) cm w3 =
        .error (PyError.keyError s)) ∧
    (∀ (t : ClassifiedTrace) (rest : List ClassifiedTrace)
        (cm : List (String × String)) (w3 : Web3) (c u : String)
        (r du dc : Int) (borrower : Value),
      t.classification = Classification.liquidate →
      t.protocol = some Protocol.compound_v2 →
      t.abi_name = some "CToken" →
      assocLookup t.inputs "cTokenCollateral" = some (Value.str c) →
      (∀ p ∈ cm, strLower p.1 = p.1) →
      assocLookup cm (strLower c) = some u →
      w3.exchangeRateCurrent (strLower c) t.block_number = .ok r →
      w3.decimals (strLower u) = .ok du →
      w3.decimals (strLower c) = .ok dc →
      assocLookup t.inputs "borrower" = some borrower →
      strLower t.to_address ≠ t.to_address →
      get_compound_liquidations (t :: rest) cm w3 =
        .error (PyError.keyError t.to_address)) := by
  constructor
  · intro t rest cm w3 s u r du dc borrower hclass hproto habi hctc hup
      hkeys hreg hx hdu hdc hbor
    have hnone : assocLookup cm s = none :=
      assocLookup_eq_none_of_upper cm s hkeys hup
    simp [get_compound_liquidations, liquidationsLoop, processTrace,
      get_underlying_ctoken_exchange_rate, get_erc20_token_decimals,
      dictGet, mapGet, derefOpt, Value.asStr,
      hclass, hproto, habi, hctc, hreg, hx, hdu, hdc, hbor, hnone,
      bind, Except.bind, pure, Except.pure]
  · intro t rest cm w3 c u r du dc borrower hclass hproto habi hctc
      hkeys hreg hx hdu hdc hbor hup
    have hnone : assocLookup cm t.to_address = none :=
      assocLookup_eq_none_of_upper cm t.to_address hkeys hup
    simp [get_compound_liquidations, liquidationsLoop, processTrace,
      get_underlying_ctoken_exchange_rate, get_erc20_token_decimals,
      dictGet, mapGet, derefOpt, Value.asStr,
      hclass, hproto, habi, hctc, hreg, hx, hdu, hdc, hbor, hnone,
      bind, Except.bind, pure, Except.pure]

/-- A compound_v2 CEther liquidate trace whose cTokenCollateral input
carries one upper-case character, while the registry holds the market
under the lower-cased key. -/
def c10UpTrace : ClassifiedTrace :=
  { transaction_hash := "0xtxB"
    block_number := 77
    trace_address := []
    classification := Classification.liquidate
    protocol := some Protocol.compound_v2
    abi_name := some "CEther"
    from_address := "0xliq"
    to_address := "0xceth"
    inputs := [("borrower", Value.str "0xB"),
               ("cTokenCollateral", Value.str "0xC_dai")]
    value := 3000 }

/-- Witness for claim C10 (amended, first conjunct): the CEther-branch
registry lookup of the mixed-case cTokenCollateral key 0xC_dai raises
a KeyError although the registry holds 0xc_dai. -/
theorem c10_upper_lookup_fails_witness :
    get_compound_liquidations [c10UpTrace] c2Markets c2W3 =
      .error (PyError.keyError "0xC_dai") :=
  c10_upper_lookup_fails.1 c10UpTrace [] c2Markets c2W3 "0xC_dai" "0xdai"
    (2 * 10 ^ 16) 8 8 (Value.str "0xB") (by decide) (by decide) (by decide)
    (by decide) (by decide) (by decide) (by decide) (by decide) (by decide)
    (by decide) (by decide)

/-- A compound_v2 CEther liquidate trace whose to_address carries
upper-case characters (the cTokenCollateral input is lower-case). -/
def c10CexTrace : ClassifiedTrace :=
  { transaction_hash := "0xtxA"
    block_number := 77
    trace_address := []
    classification := Classification.liquidate
    protocol := some Protocol.compound_v2
    abi_name := some "CEther"
    from_address := "0xliq"
    to_address := "0xCETH"
    inputs := [("borrower", Value.str "0xB"),
               ("cTokenCollateral", Value.str "0xc_dai")]
    value := 3000 }

/-- The seize child of the C10 counterexample trace. -/
def c10CexSeize : ClassifiedTrace :=
  { transaction_hash := "0xtxA"
    block_number := 77
    trace_address := [0]
    classification := Classification.seize
    protocol := some Protocol.compound_v2
    abi_name := some "CEther"
    from_address := "0xCETH"
    to_address := "0xc_dai"
    inputs := [("liquidator", Value.str "0xL"), ("seizeTokens", Value.int 500)]
    value := 0 }

/-- Claim C10, counterexample: a qualifying liquidation trace whose
to_address contains upper-case characters is reconstructed
successfully (the CEther branch never looks the to_address up), so the
claim's disjunction "cTokenCollateral or to_address contains an
upper-case character implies the lookup fails" is false. -/
theorem c10_counterexample :
    (strLower c10CexTrace.to_address == c10CexTrace.to_address) = false ∧
    get_compound_liquidations [c10CexTrace, c10CexSeize] c2Markets c2W3 =
      .ok [{ liquidated_user := Value.str "0xB"
             collateral_token_address := WETH_ADDRESS
             debt_token_address := "0xdai"
             liquidator_user := Value.str "0xL"
             debt_purchase_amount := Value.int 3000
             protocol := Protocol.compound_v2
             received_amount := 10
             transaction_hash := "0xtxA"
             trace_address := []
             block_number := 77 }] := by
  constructor
  · decide
  · simp +decide [get_compound_liquidations, liquidationsLoop, processTrace,
      get_underlying_ctoken_exchange_rate, get_erc20_token_decimals,
      get_child_traces, get_seize_call, dictGet, mapGet, assocLookup, strLower,
      derefOpt, Value.asStr, Value.asInt, c2W3, c2Markets, c10CexTrace,
      c10CexSeize, WETH_ADDRESS, bind, Except.bind, pure, Except.pure]
    norm_num
